import Mathlib

/-!
Verification of the credential-management core of the
`erp-construction-manager` backend: the `UserRepository`
(`src/backend/src/repository/users.ts`) and the `createUser` service
(`src/backend/src/service/createUser.ts`), persisting to a relational
`users` table with a unique constraint on `email` (migrations create
`id` (pk), `email` (unique), `password` renamed to `passwordHash`, plus
created/updated timestamps).

The embedding is a shallow one: the backing store is a list of table
rows threaded explicitly through every operation; fallible operations
return `Except`.  The storage driver's conflict error for the
email-uniqueness constraint is a parameter (`DriverError`) carrying the
driver's message together with its structured signal (SQLSTATE code and
constraint name), since the driver itself is an external collaborator
whose exact message varies across versions and locales.
-/

set_option maxRecDepth 4000

namespace Erp

/-- The `User` entity (`src/backend/src/model/users.ts` is referenced by
the repository and service; its shape — exactly `id`, `email`,
`passwordHash` — is fixed by `userToTableRow`/`tableRowToUser` and the
service's construction of `createUserIntent`). -/
structure User where
  id : String
  email : String
  passwordHash : String
deriving Repr, DecidableEq

/-- A persisted row of the `users` table: the three entity columns plus
the created/updated timestamps maintained by the store
(`table.timestamps(true, true)` in the initial migration). -/
structure TableRow where
  id : String
  email : String
  passwordHash : String
  createdAt : Nat
  updatedAt : Nat
deriving Repr, DecidableEq

/-- The backing store: the `users` table as a list of rows. -/
abbrev Store := List TableRow

/-- An error raised by the storage driver.  `message` is the driver's
human-readable message (version/locale dependent); `code` and
`constraintName` are the structured conflict signal (e.g. SQLSTATE
`23505` and constraint `users_email_unique`). -/
structure DriverError where
  message : String
  code : String
  constraintName : String
deriving Repr, DecidableEq

/-- An error surfaced by the repository or the service: either a raw
driver error rethrown unchanged, or a domain-level `Error(msg)`
constructed by this core (`'Email already exists'`,
`'Failed to create user'`), or a failure of the hashing primitive. -/
inductive Err where
  | driver (e : DriverError)
  | domain (msg : String)
  | hashFailure (msg : String)
deriving Repr, DecidableEq

/-- `charsStart hay needle`: does `hay` start with `needle`?
(Character-level model of JavaScript string prefix testing.) -/
def charsStart : List Char → List Char → Bool
  | _, [] => true
  | [], _ :: _ => false
  | a :: hs, b :: ns => a == b && charsStart hs ns

/-- `charsHave hay needle`: does `hay` contain `needle` as a contiguous
substring? -/
def charsHave : List Char → List Char → Bool
  | [], needle => charsStart [] needle
  | c :: t, needle => charsStart (c :: t) needle || charsHave t needle

/-- JavaScript `hay.includes(needle)`. -/
def strIncludes (hay needle : String) : Bool :=
  charsHave hay.data needle.data

/-- `userToTableRow` (private method of `UserRepository`): the record
the repository hands to the store on insert/update — exactly the three
entity fields. -/
def userToTableRow (register : User) : User :=
  { id := register.id
    email := register.email
    passwordHash := register.passwordHash }

/-- `tableRowToUser` (private method of `UserRepository`): projects a
fetched row back to the `User` entity, dropping store-side columns
(timestamps). -/
def tableRowToUser (row : TableRow) : User :=
  { id := row.id
    email := row.email
    passwordHash := row.passwordHash }

/-- The row the store holds after accepting an insert of `u`: the three
supplied columns plus store-maintained timestamps. -/
def storedRow (u : User) (c m : Nat) : TableRow :=
  { id := u.id
    email := u.email
    passwordHash := u.passwordHash
    createdAt := c
    updatedAt := m }

/-- `db('users').where({ id }).first()`. -/
def dbWhereIdFirst (s : Store) (id : String) : Option TableRow :=
  s.find? (fun r => r.id == id)

/-- `db('users').where({ email }).first()`. -/
def dbWhereEmailFirst (s : Store) (email : String) : Option TableRow :=
  s.find? (fun r => r.email == email)

/-- `db('users').insert(row)`.  The store rejects the insert with the
driver's conflict error `insErr` when the unique constraint on `email`
would be violated; otherwise it appends the row with fresh timestamps.
(The primary-key constraint on `id` cannot fire on `saveUser`'s insert
branch, which is only reached when no row with that id exists.) -/
def dbInsertE (insErr : DriverError) (ts : Nat) (s : Store) (u : User) :
    Except DriverError Store :=
  if s.any (fun r => r.email == u.email) then .error insErr
  else .ok (s ++ [storedRow u ts ts])

/-- How an update rewrites one row: a row matching `id` takes the
supplied columns and a fresh `updatedAt`; any other row is untouched. -/
def updRow (u : User) (ts : Nat) (id : String) (r : TableRow) : TableRow :=
  if r.id == id then
    { id := u.id
      email := u.email
      passwordHash := u.passwordHash
      createdAt := r.createdAt
      updatedAt := ts }
  else r

/-- `db('users').where({ id }).update(row)`.  The store rejects the
update with the driver error `updErr` when it would give this row an
email already held by a different row (unique constraint on `email`);
otherwise every row matching `id` is rewritten by `updRow`. -/
def dbUpdateE (updErr : DriverError) (ts : Nat) (s : Store) (id : String)
    (u : User) : Except DriverError Store :=
  if s.any (fun r => r.id != id && r.email == u.email) then .error updErr
  else .ok (s.map (updRow u ts id))

/-- The exact message `UserRepository.saveUser` matches the caught error
against (`err.message.includes(...)`, `repository/users.ts` line 19). -/
def duplicateKeyMessage : String :=
  "insert into \"users\" (\"email\", \"id\", \"password_hash\", \"phone_number\", \"username\") values ($1, $2, $3, $4, $5) - duplicate key value violates unique constraint \"users_email_unique\""

/-- `UserRepository.saveUser`: looks up the id; if present, updates the
row (no try/catch around the update — a driver error there propagates
raw); if absent, inserts, and on a caught driver error throws
`Error('Email already exists')` exactly when the driver message contains
`duplicateKeyMessage`, rethrowing the raw error otherwise.  Returns the
result together with the resulting store (unchanged on failure, the
single-row write being atomic). -/
def saveUser (insErr updErr : DriverError) (ts : Nat) (s : Store)
    (user : User) : Except Err Unit × Store :=
  match dbWhereIdFirst s user.id with
  | some _ =>
    match dbUpdateE updErr ts s user.id (userToTableRow user) with
    | .error e => (.error (.driver e), s)
    | .ok s2 => (.ok (), s2)
  | none =>
    match dbInsertE insErr ts s (userToTableRow user) with
    | .error e =>
      if strIncludes e.message duplicateKeyMessage then
        (.error (.domain "Email already exists"), s)
      else (.error (.driver e), s)
    | .ok s2 => (.ok (), s2)

/-- `UserRepository.findById`: point lookup, `null` when absent. -/
def findById (s : Store) (id : String) : Option User :=
  match dbWhereIdFirst s id with
  | none => none
  | some row => some (tableRowToUser row)

/-- `UserRepository.findByEmail`: point lookup, `null` when absent. -/
def findByEmail (s : Store) (email : String) : Option User :=
  match dbWhereEmailFirst s email with
  | none => none
  | some row => some (tableRowToUser row)

/-- `CreateUserParams` (`service/createUser.ts`). -/
structure CreateUserParams where
  email : String
  password : String
deriving Repr, DecidableEq

/-- A store operation issued by the `createUser` service, for tracing
which repository calls the service makes on each path. -/
inductive Op where
  | hashOp
  | saveOp (u : User)
  | findOp (id : String)
deriving Repr, DecidableEq

/-- The `createUser` service (`service/createUser.ts`), embedded
generically over the repository it calls (`find` = `findById`,
`save` = `saveUser`) and over the hashing primitive and the generated
UUID.  Returns the result, the resulting store, and the trace of steps
taken:

1. hash the password (a rejection propagates, nothing else runs);
2. build the intent `{ id := newId, email, passwordHash }`;
3. `saveUser` it (a rejection propagates unchanged, no further calls);
4. re-read via `findById(intent.id)`; `null` becomes
   `Error('Failed to create user')`, otherwise the re-read user is
   returned. -/
def createUserT (find : Store → String → Option User)
    (save : Store → User → Except Err Unit × Store)
    (hash : String → Except Err String)
    (newId : String) (s : Store) (params : CreateUserParams) :
    (Except Err User × Store) × List Op :=
  match hash params.password with
  | .error e => ((.error e, s), [Op.hashOp])
  | .ok hpw =>
    let intent : User :=
      { id := newId, email := params.email, passwordHash := hpw }
    match save s intent with
    | (.error e, s2) => ((.error e, s2), [Op.hashOp, Op.saveOp intent])
    | (.ok _, s2) =>
      match find s2 intent.id with
      | none =>
        ((.error (.domain "Failed to create user"), s2),
          [Op.hashOp, Op.saveOp intent, Op.findOp intent.id])
      | some u =>
        ((.ok u, s2), [Op.hashOp, Op.saveOp intent, Op.findOp intent.id])

/-- `createUser` against the generic repository, without the trace. -/
def createUserWith (find : Store → String → Option User)
    (save : Store → User → Except Err Unit × Store)
    (hash : String → Except Err String)
    (newId : String) (s : Store) (params : CreateUserParams) :
    Except Err User × Store :=
  (createUserT find save hash newId s params).1

/-- `createUser` wired to the concrete `UserRepository` and a total
hashing function (`hashPassword` resolving normally). -/
def createUser (hashFn : String → String) (newId : String)
    (insErr updErr : DriverError) (ts : Nat) (s : Store)
    (params : CreateUserParams) : Except Err User × Store :=
  createUserWith findById (saveUser insErr updErr ts)
    (fun pw => .ok (hashFn pw)) newId s params

/-- Rows of the store holding a given id (for count-by-id). -/
def countById (s : Store) (id : String) : Nat :=
  (s.filter (fun r => r.id == id)).length

/-- Rows of the store holding a given email. -/
def countByEmail (s : Store) (email : String) : Nat :=
  (s.filter (fun r => r.email == email)).length

/-- One user-creation request as submitted to the service, together
with the UUID the service generates for it and the store timestamp. -/
structure Req where
  newId : String
  email : String
  password : String
  ts : Nat
deriving Repr, DecidableEq

/-- A sequence of `createUser` invocations run against the store, each
threading the store left by the previous one (failures leave the store
unchanged). -/
def runCreates (hashFn : String → String) (insErr updErr : DriverError) :
    List Req → Store → Store
  | [], s => s
  | q :: qs, s =>
    runCreates hashFn insErr updErr qs
      (createUser hashFn q.newId insErr updErr q.ts s
        { email := q.email, password := q.password }).2

/-! ### Concrete instances used by witnesses and counterexamples -/

/-- A generic storage failure carrying no uniqueness-conflict signal. -/
def wErr : DriverError :=
  { message := "connection reset", code := "XX000", constraintName := "" }

/-- The conflict error a PostgreSQL driver reports for a violation of
the `users_email_unique` constraint: the structured signal (SQLSTATE
`23505`, the constraint name) is present, and the message is the
driver's usual one — which does not contain the full statement text
that `duplicateKeyMessage` hard-codes (that text lists `password_hash`,
`phone_number` and `username` columns, none of which the repository's
insert sends and the latter two of which no migration ever created). -/
def pgUniqueViolation : DriverError :=
  { message := "duplicate key value violates unique constraint \"users_email_unique\""
    code := "23505"
    constraintName := "users_email_unique" }

/-- A driver error whose message is exactly the hard-coded text the
repository matches against. -/
def matchedViolation : DriverError :=
  { message := duplicateKeyMessage
    code := "23505"
    constraintName := "users_email_unique" }

/-- A stored row used by witnesses. -/
def wRowA : TableRow :=
  { id := "u-1", email := "a@x.com", passwordHash := "H1"
    createdAt := 0, updatedAt := 0 }

/-- A second stored row, distinct id and email. -/
def wRowB : TableRow :=
  { id := "u-2", email := "b@x.com", passwordHash := "H2"
    createdAt := 0, updatedAt := 0 }

/-- A deterministic stand-in for the credential hasher, used only to
run the embedding on concrete inputs. -/
def wHashFn : String → String := fun pw => String.append "argon2HASH#" pw

/-- A stand-in hasher whose output on the witness password neither
equals nor contains it. -/
def wHashOpaque : String → String := fun _ => "h0pAqu3"

/-- A single concrete creation request used by the C4 witness. -/
def wReq7 : Req :=
  { newId := "u-7", email := "e@x.com", password := "Secret123", ts := 0 }

/-- The row `wReq7` leaves in an empty store under `wHashOpaque`. -/
def wRow7 : TableRow :=
  { id := "u-7", email := "e@x.com", passwordHash := "h0pAqu3"
    createdAt := 0, updatedAt := 0 }

/-- The user the first concrete `createUser` call returns. -/
def wUser1 : User :=
  { id := "id-1", email := "a@x.com", passwordHash := "argon2HASH#Secret123" }

/-- The row that first call leaves in the store. -/
def wRow1 : TableRow :=
  { id := "id-1", email := "a@x.com", passwordHash := "argon2HASH#Secret123"
    createdAt := 0, updatedAt := 0 }

/-- A degenerate repository lookup that never finds anything: the store
accepted the write yet the row is not retrievable — the anomaly the
service's defensive re-read check guards against. -/
def findNone : Store → String → Option User := fun _ _ => none

/-- A repository save that accepts every write without changing the
store (paired with `findNone` to exercise the verification-failed
path). -/
def saveAccept : Store → User → Except Err Unit × Store :=
  fun s _ => (.ok (), s)

/-- A repository save that rejects every write with the domain
duplicate-email error. -/
def saveReject : Store → User → Except Err Unit × Store :=
  fun s _ => (.error (.domain "Email already exists"), s)

/-- A hashing step that resolves normally. -/
def hashOk : String → Except Err String :=
  fun pw => .ok (String.append "argon2HASH#" pw)

/-- A hashing step that rejects (catastrophic resource exhaustion). -/
def hashCrash : String → Except Err String :=
  fun _ => .error (.hashFailure "out of memory")

/-! ### Helper lemmas about the store primitives -/

theorem dbWhereIdFirst_eq_none_iff (s : Store) (i : String) :
    dbWhereIdFirst s i = none ↔ ∀ r ∈ s, r.id ≠ i := by
  simp [dbWhereIdFirst, List.find?_eq_none]

theorem dbWhereIdFirst_append_one (s : Store) (i : String) (r0 : TableRow)
    (h : ∀ r ∈ s, r.id ≠ i) (h0 : r0.id = i) :
    dbWhereIdFirst (s ++ [r0]) i = some r0 := by
  have hs : List.find? (fun r => r.id == i) s = none := by
    rw [List.find?_eq_none]
    intro x hx
    simpa using h x hx
  unfold dbWhereIdFirst
  rw [List.find?_append, hs]
  simp [List.find?_cons, h0]

theorem dbWhereEmailFirst_append_one (s : Store) (e : String)
    (r0 : TableRow) (h : ∀ r ∈ s, r.email ≠ e) (h0 : r0.email = e) :
    dbWhereEmailFirst (s ++ [r0]) e = some r0 := by
  have hs : List.find? (fun r => r.email == e) s = none := by
    rw [List.find?_eq_none]
    intro x hx
    simpa using h x hx
  unfold dbWhereEmailFirst
  rw [List.find?_append, hs]
  simp [List.find?_cons, h0]

theorem updRow_id_pres (u : User) (ts : Nat) (i : String) (r : TableRow)
    (hui : u.id = i) :
    ((updRow u ts i r).id == i) = (r.id == i) := by
  by_cases h : r.id == i <;> simp [updRow, h, hui]

theorem dbWhereIdFirst_map_updRow (u : User) (ts : Nat) (i : String)
    (s : Store) (hui : u.id = i) :
    dbWhereIdFirst (s.map (updRow u ts i)) i =
      (dbWhereIdFirst s i).map (updRow u ts i) := by
  induction s with
  | nil => rfl
  | cons r t ih =>
    simp only [List.map_cons, dbWhereIdFirst, List.find?_cons,
      updRow_id_pres u ts i r hui] at ih ⊢
    by_cases h : r.id == i
    · simp [h]
    · simp [h, ih]

theorem countById_map_updRow (u : User) (ts : Nat) (i : String) (s : Store)
    (hui : u.id = i) :
    countById (s.map (updRow u ts i)) i = countById s i := by
  induction s with
  | nil => rfl
  | cons r t ih =>
    by_cases h : r.id == i
    · simp [countById, List.filter_cons, updRow_id_pres u ts i r hui, h] at ih ⊢
      exact ih
    · simp [countById, List.filter_cons, updRow_id_pres u ts i r hui, h] at ih ⊢
      exact ih

theorem userToTableRow_eq (u : User) : userToTableRow u = u := rfl

/-! ### Branch equations for `saveUser` -/

theorem saveUser_update_ok (insErr updErr : DriverError) (ts : Nat)
    (s : Store) (u : User) (r0 : TableRow)
    (h1 : dbWhereIdFirst s u.id = some r0)
    (h2 : s.any (fun r => r.id != u.id && r.email == u.email) = false) :
    saveUser insErr updErr ts s u = (.ok (), s.map (updRow u ts u.id)) := by
  simp [saveUser, h1, dbUpdateE, h2, userToTableRow_eq]

theorem saveUser_update_err (insErr updErr : DriverError) (ts : Nat)
    (s : Store) (u : User) (r0 : TableRow)
    (h1 : dbWhereIdFirst s u.id = some r0)
    (h2 : s.any (fun r => r.id != u.id && r.email == u.email) = true) :
    saveUser insErr updErr ts s u = (.error (.driver updErr), s) := by
  simp [saveUser, h1, dbUpdateE, h2, userToTableRow_eq]

theorem saveUser_insert_ok (insErr updErr : DriverError) (ts : Nat)
    (s : Store) (u : User)
    (h1 : dbWhereIdFirst s u.id = none)
    (h2 : s.any (fun r => r.email == u.email) = false) :
    saveUser insErr updErr ts s u = (.ok (), s ++ [storedRow u ts ts]) := by
  simp [saveUser, h1, dbInsertE, h2, userToTableRow_eq, storedRow]

theorem saveUser_insert_err (insErr updErr : DriverError) (ts : Nat)
    (s : Store) (u : User)
    (h1 : dbWhereIdFirst s u.id = none)
    (h2 : s.any (fun r => r.email == u.email) = true) :
    saveUser insErr updErr ts s u =
      (if strIncludes insErr.message duplicateKeyMessage then
        (.error (.domain "Email already exists"), s)
      else (.error (.driver insErr), s)) := by
  simp only [saveUser, h1, dbInsertE, h2, userToTableRow_eq, if_true]

/-! ### Row provenance: what `saveUser`/`createUser` can write -/

theorem saveUser_rows (insErr updErr : DriverError) (ts : Nat) (s : Store)
    (u : User) :
    ∀ r ∈ (saveUser insErr updErr ts s u).2,
      r ∈ s ∨ (r.email = u.email ∧ r.passwordHash = u.passwordHash) := by
  intro r hr
  cases h1 : dbWhereIdFirst s u.id with
  | some r0 =>
    cases h2 : s.any (fun x => x.id != u.id && x.email == u.email) with
    | true =>
      rw [saveUser_update_err insErr updErr ts s u r0 h1 h2] at hr
      exact Or.inl hr
    | false =>
      rw [saveUser_update_ok insErr updErr ts s u r0 h1 h2] at hr
      obtain ⟨r1, hr1, rfl⟩ := List.mem_map.1 hr
      by_cases h : r1.id == u.id
      · exact Or.inr (by simp [updRow, h])
      · exact Or.inl (by simpa [updRow, h] using hr1)
  | none =>
    cases h2 : s.any (fun x => x.email == u.email) with
    | true =>
      rw [saveUser_insert_err insErr updErr ts s u h1 h2] at hr
      by_cases hm : strIncludes insErr.message duplicateKeyMessage
      · rw [if_pos hm] at hr; exact Or.inl hr
      · rw [if_neg hm] at hr; exact Or.inl hr
    | false =>
      rw [saveUser_insert_ok insErr updErr ts s u h1 h2] at hr
      rcases List.mem_append.1 hr with h | h
      · exact Or.inl h
      · simp only [List.mem_singleton] at h
        subst h
        exact Or.inr ⟨rfl, rfl⟩

theorem createUser_store_eq (hashFn : String → String) (newId : String)
    (insErr updErr : DriverError) (ts : Nat) (s : Store)
    (p : CreateUserParams) :
    (createUser hashFn newId insErr updErr ts s p).2 =
      (saveUser insErr updErr ts s
        { id := newId, email := p.email, passwordHash := hashFn p.password }).2 := by
  unfold createUser createUserWith createUserT
  cases hsv : saveUser insErr updErr ts s
      { id := newId, email := p.email, passwordHash := hashFn p.password } with
  | mk res s2 =>
    cases res with
    | error e => simp [hsv]
    | ok _ =>
      cases hf : findById s2 newId with
      | none => simp [hsv, hf]
      | some u => simp [hsv, hf]

theorem createUser_rows (hashFn : String → String) (newId : String)
    (insErr updErr : DriverError) (ts : Nat) (s : Store)
    (p : CreateUserParams) :
    ∀ r ∈ (createUser hashFn newId insErr updErr ts s p).2,
      r ∈ s ∨ (r.email = p.email ∧ r.passwordHash = hashFn p.password) := by
  intro r hr
  rw [createUser_store_eq] at hr
  exact saveUser_rows insErr updErr ts s _ r hr

theorem runCreates_rows (hashFn : String → String)
    (insErr updErr : DriverError) :
    ∀ (reqs : List Req) (s : Store) (r : TableRow),
      r ∈ runCreates hashFn insErr updErr reqs s →
      r ∈ s ∨ ∃ q ∈ reqs,
        r.email = q.email ∧ r.passwordHash = hashFn q.password := by
  intro reqs
  induction reqs with
  | nil => intro s r hr; exact Or.inl hr
  | cons q qs ih =>
    intro s r hr
    simp only [runCreates] at hr
    rcases ih _ r hr with h | ⟨q', hq', he⟩
    · rcases createUser_rows hashFn q.newId insErr updErr q.ts s _ r h
        with h' | h'
      · exact Or.inl h'
      · exact Or.inr ⟨q, List.mem_cons_self q qs, h'⟩
    · exact Or.inr ⟨q', List.mem_cons_of_mem q hq', he⟩

theorem dbWhereIdFirst_unique (s : Store) (i : String) (row : TableRow)
    (hmem : row ∈ s) (hid : row.id = i)
    (hu : ∀ r1 ∈ s, ∀ r2 ∈ s, r1.id = r2.id → r1 = r2) :
    dbWhereIdFirst s i = some row := by
  have hsome : (List.find? (fun r => r.id == i) s).isSome := by
    rw [List.find?_isSome]
    exact ⟨row, hmem, by simp [hid]⟩
  obtain ⟨r', hr'⟩ := Option.isSome_iff_exists.1 hsome
  have hmem' : r' ∈ s := List.mem_of_find?_eq_some hr'
  have hid' : r'.id = i := by simpa using List.find?_some hr'
  have heq : r' = row := hu r' hmem' row hmem (by rw [hid', hid])
  rw [dbWhereIdFirst, hr', heq]

theorem dbWhereEmailFirst_unique (s : Store) (e : String) (row : TableRow)
    (hmem : row ∈ s) (hem : row.email = e)
    (hu : ∀ r1 ∈ s, ∀ r2 ∈ s, r1.email = r2.email → r1 = r2) :
    dbWhereEmailFirst s e = some row := by
  have hsome : (List.find? (fun r => r.email == e) s).isSome := by
    rw [List.find?_isSome]
    exact ⟨row, hmem, by simp [hem]⟩
  obtain ⟨r', hr'⟩ := Option.isSome_iff_exists.1 hsome
  have hmem' : r' ∈ s := List.mem_of_find?_eq_some hr'
  have hem' : r'.email = e := by simpa using List.find?_some hr'
  have heq : r' = row := hu r' hmem' row hmem (by rw [hem', hem])
  rw [dbWhereEmailFirst, hr', heq]

/-! ### The claims -/

/-- **C1** (counterexample): at a store already holding `a@x.com`, the
driver rejects the insert of a fresh-id user with that email carrying
the full structured conflict signal for the email-uniqueness constraint
(SQLSTATE `23505`, constraint `users_email_unique`), but with the
driver's usual message rather than the full statement text the
repository hard-codes; `saveUser` then rethrows the raw driver error
instead of failing with the domain-level `Error('Email already
exists')` — the detection is full-message matching, not the structured
signal. -/
theorem C1_counterexample :
    pgUniqueViolation.code = "23505" ∧
    pgUniqueViolation.constraintName = "users_email_unique" ∧
    saveUser pgUniqueViolation wErr 1 [wRowA]
      { id := "u-9", email := "a@x.com", passwordHash := "H9" } =
      (.error (.driver pgUniqueViolation), [wRowA]) ∧
    Err.driver pgUniqueViolation ≠ Err.domain "Email already exists" :=
  ⟨rfl, rfl, by rfl, by decide⟩

/-- **C1** (amended): for a user whose id is not yet present, when the
insert violates the email-uniqueness constraint `saveUser` fails with
the domain-level `Error('Email already exists')` exactly when the
driver error's message contains the hard-coded full driver message
`duplicateKeyMessage`; otherwise the raw driver error propagates
unchanged.  Detection is by substring-matching that full message, not
by the store's structured conflict signal. -/
theorem C1_duplicate_translation_by_message (insErr updErr : DriverError)
    (ts : Nat) (s : Store) (u : User)
    (hid : ∀ r ∈ s, r.id ≠ u.id)
    (hconf : s.any (fun r => r.email == u.email) = true) :
    saveUser insErr updErr ts s u =
      (if strIncludes insErr.message duplicateKeyMessage then
        (.error (.domain "Email already exists"), s)
      else (.error (.driver insErr), s)) :=
  saveUser_insert_err insErr updErr ts s u
    ((dbWhereIdFirst_eq_none_iff s u.id).2 hid) hconf

/-- Witness for C1 (amended): with a driver error whose message is
exactly the hard-coded text, the conflict is translated to
`Error('Email already exists')`. -/
theorem C1_duplicate_translation_by_message_witness :
    saveUser matchedViolation wErr 1 [wRowA]
      { id := "u-9", email := "a@x.com", passwordHash := "H9" } =
      (.error (.domain "Email already exists"), [wRowA]) := by
  have h := C1_duplicate_translation_by_message matchedViolation wErr 1 [wRowA]
    { id := "u-9", email := "a@x.com", passwordHash := "H9" }
    (by decide) (by decide)
  rw [h]
  rfl

/-- **C2**: `saveUser` has upsert semantics keyed by `id` (stated for a
user whose email is not held by a different row, so the store's unique
constraint cannot interfere — the conflicting cases are C1 and C9): if
a row with `u.id` exists, the save succeeds and overwrites that row's
email and passwordHash in place — the store's size is unchanged, the
count-by-id of `u.id` is unchanged (in particular stays 1), and
`findById` returns the updated fields; if no row with `u.id` exists,
the save inserts a new row. -/
theorem C2_saveUser_upsert_by_id (insErr updErr : DriverError) (ts : Nat)
    (s : Store) (u : User)
    (hfree : ∀ r ∈ s, r.id ≠ u.id → r.email ≠ u.email) :
    ((dbWhereIdFirst s u.id).isSome →
      saveUser insErr updErr ts s u = (.ok (), s.map (updRow u ts u.id)) ∧
      (s.map (updRow u ts u.id)).length = s.length ∧
      countById (s.map (updRow u ts u.id)) u.id = countById s u.id ∧
      findById (s.map (updRow u ts u.id)) u.id =
        some { id := u.id, email := u.email, passwordHash := u.passwordHash })
    ∧ (dbWhereIdFirst s u.id = none →
      saveUser insErr updErr ts s u = (.ok (), s ++ [storedRow u ts ts])) := by
  constructor
  · intro hsome
    obtain ⟨r0, hr0⟩ := Option.isSome_iff_exists.1 hsome
    have h2 : s.any (fun r => r.id != u.id && r.email == u.email) = false := by
      rw [List.any_eq_false]
      intro x hx
      simp only [Bool.and_eq_true, bne_iff_ne, beq_iff_eq, not_and]
      exact hfree x hx
    refine ⟨saveUser_update_ok insErr updErr ts s u r0 hr0 h2, by simp,
      countById_map_updRow u ts u.id s rfl, ?_⟩
    have hfind : dbWhereIdFirst (s.map (updRow u ts u.id)) u.id =
        some (updRow u ts u.id r0) := by
      rw [dbWhereIdFirst_map_updRow u ts u.id s rfl, hr0]
      rfl
    have hr0' : List.find? (fun r => r.id == u.id) s = some r0 := hr0
    have hr0id : (r0.id == u.id) = true := by
      simpa using List.find?_some hr0'
    simp [findById, hfind, tableRowToUser, updRow, hr0id]
  · intro hnone
    have hids := (dbWhereIdFirst_eq_none_iff s u.id).1 hnone
    have h2 : s.any (fun r => r.email == u.email) = false := by
      rw [List.any_eq_false]
      intro x hx
      simp only [beq_iff_eq]
      exact hfree x hx (hids x hx)
    exact saveUser_insert_ok insErr updErr ts s u hnone h2

/-- Witness for C2: updating the stored row `u-1` to a new email and
hash rewrites that row in place (one row before, one row after, with
the new fields and a fresh `updatedAt`). -/
theorem C2_saveUser_upsert_by_id_witness :
    saveUser wErr wErr 7 [wRowA]
      { id := "u-1", email := "c@x.com", passwordHash := "H9" } =
      (.ok (),
        [{ id := "u-1", email := "c@x.com", passwordHash := "H9"
           createdAt := 0, updatedAt := 7 }]) :=
  ((C2_saveUser_upsert_by_id wErr wErr 7 [wRowA]
      { id := "u-1", email := "c@x.com", passwordHash := "H9" }
      (by decide)).1 (by decide)).1

/-- Fully successful `createUser`: fresh email and fresh generated id —
the row is inserted and the re-read returns its projection. -/
theorem createUser_insert_ok (hashFn : String → String) (newId : String)
    (insErr updErr : DriverError) (ts : Nat) (s : Store)
    (p : CreateUserParams)
    (hemail : ∀ r ∈ s, r.email ≠ p.email)
    (hid : ∀ r ∈ s, r.id ≠ newId) :
    createUser hashFn newId insErr updErr ts s p =
      (.ok { id := newId, email := p.email, passwordHash := hashFn p.password },
        s ++ [storedRow
          { id := newId, email := p.email, passwordHash := hashFn p.password }
          ts ts]) := by
  have hnone : dbWhereIdFirst s newId = none :=
    (dbWhereIdFirst_eq_none_iff s newId).2 hid
  have h2 : s.any (fun r => r.email == p.email) = false := by
    rw [List.any_eq_false]
    intro x hx
    simpa using hemail x hx
  have hsave := saveUser_insert_ok insErr updErr ts s
    { id := newId, email := p.email, passwordHash := hashFn p.password }
    hnone h2
  have hfirst := dbWhereIdFirst_append_one s newId
    (storedRow
      { id := newId, email := p.email, passwordHash := hashFn p.password }
      ts ts) hid rfl
  unfold createUser createUserWith createUserT
  simp only [hsave, findById, hfirst]
  rfl

/-- **C3**: for params whose email is not yet registered (and a fresh
generated id, as `randomUUID` guarantees), `createUser` succeeds and
returns a User whose email equals the input and whose passwordHash is
neither equal to nor a superstring of the plaintext password — under
the claim's hypothesis that the hasher's output neither equals nor
contains its input. -/
theorem C3_createUser_returns_hashed (hashFn : String → String)
    (newId : String) (insErr updErr : DriverError) (ts : Nat) (s : Store)
    (p : CreateUserParams)
    (hemail : ∀ r ∈ s, r.email ≠ p.email)
    (hid : ∀ r ∈ s, r.id ≠ newId)
    (hneq : hashFn p.password ≠ p.password)
    (hnc : strIncludes (hashFn p.password) p.password = false) :
    ∃ u s2, createUser hashFn newId insErr updErr ts s p = (.ok u, s2) ∧
      u.email = p.email ∧
      u.passwordHash ≠ p.password ∧
      strIncludes u.passwordHash p.password = false :=
  ⟨{ id := newId, email := p.email, passwordHash := hashFn p.password }, _,
    createUser_insert_ok hashFn newId insErr updErr ts s p hemail hid,
    rfl, hneq, hnc⟩

/-- Witness for C3 at a concrete store, params and hasher. -/
theorem C3_createUser_returns_hashed_witness :
    ∃ u s2, createUser wHashOpaque "u-9" wErr wErr 3 [wRowA]
        { email := "c@x.com", password := "Secret123" } = (.ok u, s2) ∧
      u.email = "c@x.com" ∧
      u.passwordHash ≠ "Secret123" ∧
      strIncludes u.passwordHash "Secret123" = false :=
  C3_createUser_returns_hashed wHashOpaque "u-9" wErr wErr 3 [wRowA]
    { email := "c@x.com", password := "Secret123" }
    (by decide) (by decide) (by decide) (by decide)

/-- **C4**: invariant — running any sequence of `createUser` requests
from the empty store, every row the core ever writes has a
`passwordHash` that is the hasher's output on the submitted password of
the request that produced it; and whenever the hasher never returns its
input (one-way), no row's `passwordHash` is that plaintext secret. -/
theorem C4_no_plaintext_stored (hashFn : String → String)
    (insErr updErr : DriverError) (reqs : List Req) :
    (∀ r ∈ runCreates hashFn insErr updErr reqs [],
      ∃ q ∈ reqs, r.email = q.email ∧ r.passwordHash = hashFn q.password)
    ∧ ((∀ pw, hashFn pw ≠ pw) →
      ∀ r ∈ runCreates hashFn insErr updErr reqs [],
        ∃ q ∈ reqs, r.email = q.email ∧
          r.passwordHash = hashFn q.password ∧
          r.passwordHash ≠ q.password) := by
  constructor
  · intro r hr
    rcases runCreates_rows hashFn insErr updErr reqs [] r hr with h | h
    · simp at h
    · exact h
  · intro hp r hr
    rcases runCreates_rows hashFn insErr updErr reqs [] r hr
      with h | ⟨q, hq, he, hh⟩
    · simp at h
    · exact ⟨q, hq, he, hh, by rw [hh]; exact hp q.password⟩

/-- Witness for C4: one concrete request, the single resulting row's
passwordHash is the hasher's output on its submitted password. -/
theorem C4_no_plaintext_stored_witness :
    ∃ q ∈ [wReq7],
      wRow7.email = q.email ∧ wRow7.passwordHash = wHashOpaque q.password :=
  (C4_no_plaintext_stored wHashOpaque wErr wErr [wReq7]).1 wRow7 (by decide)

/-- **C5** (counterexample): two `createUser` calls with the same email
against a driver that reports the conflict with its usual message
(structured signal present, the hard-coded statement text absent): the
second call fails with the raw driver error, not with the domain-level
DuplicateEmail (`Error('Email already exists')`) the claim requires. -/
theorem C5_counterexample :
    createUser wHashFn "id-1" pgUniqueViolation pgUniqueViolation 0 []
      { email := "a@x.com", password := "Secret123" } =
      (.ok wUser1, [wRow1]) ∧
    createUser wHashFn "id-2" pgUniqueViolation pgUniqueViolation 1 [wRow1]
      { email := "a@x.com", password := "Other" } =
      (.error (.driver pgUniqueViolation), [wRow1]) ∧
    Err.driver pgUniqueViolation ≠ Err.domain "Email already exists" :=
  ⟨by rfl, by rfl, by decide⟩

/-- **C5** (amended): after a successful `createUser` for a fresh email
`e`, a second `createUser` for `e` (any password, fresh distinct id)
fails — with the domain DuplicateEmail error exactly when the driver's
conflict message contains the hard-coded text, and with the raw driver
error otherwise — and afterwards the store holds exactly one row whose
email is `e`: the first user's row, unchanged. -/
theorem C5_second_create_same_email (hashFn : String → String)
    (id1 id2 : String) (insErr updErr : DriverError) (t1 t2 : Nat)
    (s0 : Store) (e pw1 pw2 : String)
    (hemail : ∀ r ∈ s0, r.email ≠ e)
    (hid1 : ∀ r ∈ s0, r.id ≠ id1)
    (hid2 : ∀ r ∈ s0, r.id ≠ id2)
    (h12 : id1 ≠ id2) :
    ∃ u1 s1,
      createUser hashFn id1 insErr updErr t1 s0
        { email := e, password := pw1 } = (.ok u1, s1) ∧
      createUser hashFn id2 insErr updErr t2 s1
        { email := e, password := pw2 } =
        ((if strIncludes insErr.message duplicateKeyMessage then
            Except.error (Err.domain "Email already exists")
          else Except.error (Err.driver insErr)), s1) ∧
      countByEmail s1 e = 1 ∧
      findByEmail s1 e =
        some { id := id1, email := e, passwordHash := hashFn pw1 } := by
  have h1 := createUser_insert_ok hashFn id1 insErr updErr t1 s0
    { email := e, password := pw1 } hemail hid1
  set row1 : TableRow := storedRow
    { id := id1, email := e, passwordHash := hashFn pw1 } t1 t1 with hrow1
  refine ⟨{ id := id1, email := e, passwordHash := hashFn pw1 },
    s0 ++ [row1], h1, ?_, ?_, ?_⟩
  · -- the second call reaches the insert, which the store rejects
    have hnone2 : dbWhereIdFirst (s0 ++ [row1]) id2 = none := by
      rw [dbWhereIdFirst_eq_none_iff]
      intro r hr
      rcases List.mem_append.1 hr with h | h
      · exact hid2 r h
      · simp only [List.mem_singleton] at h
        subst h
        simpa [hrow1, storedRow] using h12
    have hconf : (s0 ++ [row1]).any (fun r => r.email == e) = true := by
      rw [List.any_eq_true]
      exact ⟨row1, List.mem_append.2 (Or.inr (List.mem_singleton.2 rfl)),
        by simp [hrow1, storedRow]⟩
    have hsave2 := saveUser_insert_err insErr updErr t2 (s0 ++ [row1])
      { id := id2, email := e, passwordHash := hashFn pw2 } hnone2 hconf
    unfold createUser createUserWith createUserT
    by_cases hm : strIncludes insErr.message duplicateKeyMessage
    · rw [if_pos hm] at hsave2 ⊢
      simp only [hsave2]
    · rw [if_neg hm] at hsave2 ⊢
      simp only [hsave2]
  · -- exactly one row for e afterwards
    have h0 : countByEmail s0 e = 0 := by
      simp only [countByEmail, List.length_eq_zero, List.filter_eq_nil_iff]
      intro r hr
      simpa using hemail r hr
    simp [countByEmail, List.filter_append, hrow1, storedRow]
    simpa [countByEmail] using h0
  · -- and it is the first user's row, unchanged
    have hfirst := dbWhereEmailFirst_append_one s0 e row1 hemail
      (by simp [hrow1, storedRow])
    simp only [findByEmail, hfirst]
    simp [hrow1, storedRow, tableRowToUser]

/-- Witness for C5 (amended): with the driver error message being
exactly the hard-coded text, the second call fails with the
domain-level `Error('Email already exists')`. -/
theorem C5_second_create_same_email_witness :
    ∃ u1 s1,
      createUser wHashFn "id-1" matchedViolation wErr 0 []
        { email := "a@x.com", password := "Secret123" } = (.ok u1, s1) ∧
      createUser wHashFn "id-2" matchedViolation wErr 1 s1
        { email := "a@x.com", password := "Other" } =
        ((if strIncludes matchedViolation.message duplicateKeyMessage then
            Except.error (Err.domain "Email already exists")
          else Except.error (Err.driver matchedViolation)), s1) ∧
      countByEmail s1 "a@x.com" = 1 ∧
      findByEmail s1 "a@x.com" =
        some { id := "id-1", email := "a@x.com"
               passwordHash := wHashFn "Secret123" } :=
  C5_second_create_same_email wHashFn "id-1" "id-2" matchedViolation wErr
    0 1 [] "a@x.com" "Secret123" "Other"
    (by decide) (by decide) (by decide) (by decide)

/-- **C6**: after a successful save the service re-reads through the
repository's `findById`; a `null` re-read becomes the
CreationVerificationFailed error (`Error('Failed to create user')`),
and otherwise the service returns exactly the re-read User — the
store's canonical representation, whatever the repository returns —
not the locally constructed intent.  Stated over the repository
interface the service calls. -/
theorem C6_reread_or_verification_failed
    (find : Store → String → Option User)
    (save : Store → User → Except Err Unit × Store)
    (hash : String → Except Err String)
    (newId : String) (s : Store) (p : CreateUserParams)
    (hpw : String) (s2 : Store)
    (hh : hash p.password = .ok hpw)
    (hs : save s { id := newId, email := p.email, passwordHash := hpw } =
      (.ok (), s2)) :
    (find s2 newId = none →
      createUserWith find save hash newId s p =
        (.error (.domain "Failed to create user"), s2))
    ∧ ∀ u, find s2 newId = some u →
      createUserWith find save hash newId s p = (.ok u, s2) := by
  constructor
  · intro hf
    simp only [createUserWith, createUserT, hh, hs, hf]
  · intro u hf
    simp only [createUserWith, createUserT, hh, hs, hf]

/-- Witness for C6: a store that accepts the write yet whose lookup
returns nothing makes the service fail with
`Error('Failed to create user')`. -/
theorem C6_reread_or_verification_failed_witness :
    createUserWith findNone saveAccept hashOk "u-9" []
      { email := "a@x.com", password := "pw" } =
      (.error (.domain "Failed to create user"), []) :=
  (C6_reread_or_verification_failed findNone saveAccept hashOk "u-9" []
    { email := "a@x.com", password := "pw" } "argon2HASH#pw" []
    rfl rfl).1 rfl

/-- **C7**: `createUser` swallows no error: a hashing rejection is
returned to the caller unchanged with no repository call made at all,
and a save rejection — DuplicateEmail included — is returned unchanged
(no retry, no fresh identifier, no translation or masking), with no
`findById` call made after the failure.  Stated over the service's
operation trace. -/
theorem C7_createUser_propagates_errors
    (find : Store → String → Option User)
    (save : Store → User → Except Err Unit × Store)
    (hash : String → Except Err String)
    (newId : String) (s : Store) (p : CreateUserParams) :
    (∀ e, hash p.password = .error e →
      createUserT find save hash newId s p = ((.error e, s), [Op.hashOp]))
    ∧ ∀ hpw e2 s2, hash p.password = .ok hpw →
      save s { id := newId, email := p.email, passwordHash := hpw } =
        (.error e2, s2) →
      createUserT find save hash newId s p =
        ((.error e2, s2),
          [Op.hashOp,
            Op.saveOp
              { id := newId, email := p.email, passwordHash := hpw }]) ∧
      ∀ i, Op.findOp i ∉
        [Op.hashOp,
          Op.saveOp { id := newId, email := p.email, passwordHash := hpw }] := by
  constructor
  · intro e he
    simp only [createUserT, he]
  · intro hpw e2 s2 hh hs
    refine ⟨by simp only [createUserT, hh, hs], ?_⟩
    intro i
    simp

/-- Witness for C7: a save that rejects with the domain DuplicateEmail
error: the service returns that very error and its trace holds no
`findById` call after the save. -/
theorem C7_createUser_propagates_errors_witness :
    createUserT findNone saveReject hashOk "u-9" []
      { email := "a@x.com", password := "pw" } =
      ((.error (.domain "Email already exists"), []),
        [Op.hashOp,
          Op.saveOp { id := "u-9", email := "a@x.com"
                      passwordHash := "argon2HASH#pw" }]) :=
  ((C7_createUser_propagates_errors findNone saveReject hashOk "u-9" []
    { email := "a@x.com", password := "pw" }).2 "argon2HASH#pw"
    (.domain "Email already exists") [] rfl rfl).1

/-- **C8**: `findById` and `findByEmail` are total lookups (the
embedding returns in `Option`, never an error): on a key with no
corresponding row they return `none`, and on a key that has a row
(ids, respectively emails, being unique across the store) they return
that row's User. -/
theorem C8_find_null_or_row (s : Store) (i e : String) :
    ((∀ r ∈ s, r.id ≠ i) → findById s i = none)
    ∧ ((∀ r ∈ s, r.email ≠ e) → findByEmail s e = none)
    ∧ (∀ row ∈ s, row.id = i →
        (∀ r1 ∈ s, ∀ r2 ∈ s, r1.id = r2.id → r1 = r2) →
        findById s i = some (tableRowToUser row))
    ∧ (∀ row ∈ s, row.email = e →
        (∀ r1 ∈ s, ∀ r2 ∈ s, r1.email = r2.email → r1 = r2) →
        findByEmail s e = some (tableRowToUser row)) := by
  refine ⟨?_, ?_, ?_, ?_⟩
  · intro h
    simp [findById, (dbWhereIdFirst_eq_none_iff s i).2 h]
  · intro h
    have he : dbWhereEmailFirst s e = none := by
      rw [dbWhereEmailFirst, List.find?_eq_none]
      intro x hx
      simpa using h x hx
    simp [findByEmail, he]
  · intro row hmem hid hu
    simp [findById, dbWhereIdFirst_unique s i row hmem hid hu]
  · intro row hmem hem hu
    simp [findByEmail, dbWhereEmailFirst_unique s e row hmem hem hu]

/-- Witness for C8: a lookup miss returns `none`; a lookup hit returns
the stored row's User. -/
theorem C8_find_null_or_row_witness :
    findById [wRowA, wRowB] "zz" = none ∧
    findById [wRowA, wRowB] "u-2" = some (tableRowToUser wRowB) :=
  ⟨(C8_find_null_or_row [wRowA, wRowB] "zz" "zz").1 (by decide),
   (C8_find_null_or_row [wRowA, wRowB] "u-2" "x").2.2.1 wRowB
     (by decide) (by decide) (by decide)⟩

/-- **C9**: the DuplicateEmail translation guards only the insert
branch of `saveUser`: when a row with `u.id` already exists and the
update would take an email already held by a different row, the store
rejects the update and `saveUser` propagates the raw driver error
unchanged — it never raises the domain-level
`Error('Email already exists')` on this path. -/
theorem C9_update_conflict_propagates_raw (insErr updErr : DriverError)
    (ts : Nat) (s : Store) (u : User) (r0 : TableRow)
    (hex : dbWhereIdFirst s u.id = some r0)
    (hconf : ∃ r ∈ s, r.id ≠ u.id ∧ r.email = u.email) :
    saveUser insErr updErr ts s u = (.error (.driver updErr), s) ∧
    ∀ msg, Err.driver updErr ≠ Err.domain msg := by
  have h2 : s.any (fun r => r.id != u.id && r.email == u.email) = true := by
    rw [List.any_eq_true]
    obtain ⟨r, hr, hne, he⟩ := hconf
    exact ⟨r, hr, by simp [hne, he]⟩
  exact ⟨saveUser_update_err insErr updErr ts s u r0 hex h2,
    fun msg h => Err.noConfusion h⟩

/-- Witness for C9: updating `u-1`'s email to the one `u-2` holds is
rejected and surfaces the raw driver error, even though that error
carries the email-uniqueness conflict signal. -/
theorem C9_update_conflict_propagates_raw_witness :
    saveUser wErr pgUniqueViolation 5 [wRowA, wRowB]
      { id := "u-1", email := "b@x.com", passwordHash := "H9" } =
      (.error (.driver pgUniqueViolation), [wRowA, wRowB]) :=
  (C9_update_conflict_propagates_raw wErr pgUniqueViolation 5
    [wRowA, wRowB]
    { id := "u-1", email := "b@x.com", passwordHash := "H9" } wRowA rfl
    ⟨wRowB, by decide, by decide, by decide⟩).1

/-- **C10**: round-trip projection — `userToTableRow` keeps exactly the
three entity fields (on the `User` record it is the identity), reading
back the row the store persists for it strips the store-side timestamp
columns and yields the original User, and every value
`findById`/`findByEmail` returns is `tableRowToUser` of a stored row,
hence carries exactly `id`, `email` and `passwordHash`. -/
theorem C10_roundtrip_projection :
    (∀ u : User, userToTableRow u = u)
    ∧ (∀ (u : User) (c m : Nat),
        tableRowToUser (storedRow (userToTableRow u) c m) = u)
    ∧ (∀ (s : Store) (i : String) (v : User), findById s i = some v →
        ∃ row, dbWhereIdFirst s i = some row ∧ v = tableRowToUser row)
    ∧ (∀ (s : Store) (e : String) (v : User), findByEmail s e = some v →
        ∃ row, dbWhereEmailFirst s e = some row ∧ v = tableRowToUser row) := by
  refine ⟨fun u => rfl, fun u c m => rfl, ?_, ?_⟩
  · intro s i v hv
    unfold findById at hv
    cases hf : dbWhereIdFirst s i with
    | none => rw [hf] at hv; cases hv
    | some row =>
      rw [hf] at hv
      exact ⟨row, rfl, by injection hv with h; exact h.symm⟩
  · intro s e v hv
    unfold findByEmail at hv
    cases hf : dbWhereEmailFirst s e with
    | none => rw [hf] at hv; cases hv
    | some row =>
      rw [hf] at hv
      exact ⟨row, rfl, by injection hv with h; exact h.symm⟩

/-- Witness for C10: the user read back for `u-1` is the projection of
the stored row. -/
theorem C10_roundtrip_projection_witness :
    ∃ row, dbWhereIdFirst [wRowA] "u-1" = some row ∧
      ({ id := "u-1", email := "a@x.com", passwordHash := "H1" } : User) =
        tableRowToUser row :=
  C10_roundtrip_projection.2.2.1 [wRowA] "u-1"
    { id := "u-1", email := "a@x.com", passwordHash := "H1" } (by rfl)

end Erp
